import Mathlib

/-!
Verification of the streaming relay in `src/prep/4_prep.py`.

The only nontrivial code of the repository is the async generator
`event_stream` inside the `/ai` route: it opens an upstream streaming POST
request, emits a fixed start banner and a status event, then consumes the
upstream body line by line, decoding each line as JSON and relaying the
`response` fragment as a `message` event until a line with a truthy `done`
flag is seen, finally emitting a closing banner and a terminal `close`
event.

The embedding below translates `event_stream` statement by statement into a
function from an upstream observation to a trace of actions.  The Python
standard-library collaborators `str.strip` and `json.loads` are outside this
repository, so an upstream line is modelled by its observable classification
under them: whitespace-only, undecodable (JSONDecodeError), or decoded to a
JSON value.
-/

namespace HtmxRelay

/-- JSON values as returned by the standard-library decoder.  Numbers are
modelled as integers (no claim involves fractional values). -/
inductive JsonVal where
  | jnull : JsonVal
  | jbool (b : Bool) : JsonVal
  | jnum (n : Int) : JsonVal
  | jstr (s : String) : JsonVal
  | jarr (elems : List JsonVal) : JsonVal
  | jobj (fields : List (String × JsonVal)) : JsonVal

/-- Lookup of a key in a decoded JSON object.  `json.loads` builds a Python
dict, where a duplicated key keeps the last occurrence, hence `getLast?`. -/
def getJ (fields : List (String × JsonVal)) (k : String) : Option JsonVal :=
  ((fields.filter (fun p => p.1 == k)).map (fun p => p.2)).getLast?

/-- Python truthiness of a decoded JSON value, used by `if data.get("done")`:
None/False/0/empty string/empty list/empty dict are falsy. -/
def truthy : JsonVal → Bool
  | .jnull => false
  | .jbool b => b
  | .jnum n => n != 0
  | .jstr s => s != ""
  | .jarr l => !l.isEmpty
  | .jobj l => !l.isEmpty

/-- Truthiness of the result of `data.get("done")`: a missing key gives
Python None, which is falsy, exactly as a JSON null is. -/
def truthyOpt (o : Option JsonVal) : Bool :=
  truthy (o.getD .jnull)

/-- An upstream body line, classified by the observable behaviour of
`line.strip()` and `json.loads(line)`:
  * `ws`: `line.strip()` is empty (the line is skipped before any decode);
  * `malformed s`: `json.loads` raises `JSONDecodeError` on the raw line `s`;
  * `json v`: `json.loads` succeeds and returns the value `v`. -/
inductive ULine where
  | ws : ULine
  | malformed (s : String) : ULine
  | json (v : JsonVal) : ULine

/-- What a session observes from the upstream service: either the connection
fails to establish (the `async with client.stream` entry raises), or it
yields a status code and a sequence of body lines. -/
inductive Upstream where
  | connectFail : Upstream
  | ok (status : Nat) (lines : List ULine) : Upstream

/-- Event kinds used by the relay. -/
inductive EvKind where
  | message : EvKind
  | status : EvKind
  | close : EvKind
deriving DecidableEq

/-- An outbound server-sent event: the yielded dict
`\x7b"event": kind, "data": payload\x7d`. -/
structure OutboundEvent where
  event : EvKind
  data : JsonVal

/-- Local diagnostics written by `print` calls in `event_stream`. -/
inductive LogMsg where
  | statusLog (code : Nat) : LogMsg
  | chunkLog (v : JsonVal) : LogMsg
  | decodeFailure (line : String) : LogMsg

/-- One observable action of the generator:
  * `connect`: the upstream connection is established (entering
    `async with client.stream`);
  * `emit e`: a `yield` of the event `e`;
  * `sleep ms`: an `await asyncio.sleep` of the given milliseconds;
  * `log m`: a `print` diagnostic;
  * `release`: the `async with` blocks exit, closing the upstream
    response/client handle. -/
inductive Action where
  | connect : Action
  | emit (e : OutboundEvent) : Action
  | sleep (ms : Nat) : Action
  | log (m : LogMsg) : Action
  | release : Action

/-- Result of running the generator to its end: the full trace, and whether
it terminated by an uncaught exception (`raised = true`) rather than by
returning normally. -/
structure SessionRun where
  trace : List Action
  raised : Bool

/-- The body loop `async for line in resp.aiter_lines()`, translated
clause by clause:
  * `if not line.strip(): continue` — a `ws` line contributes nothing;
  * `except json.JSONDecodeError: print(...)` — a `malformed` line only logs;
  * on decode success, `chunk = data.get("response", "")` is read, logged,
    a pacing sleep runs, the `message` event is yielded, and
    `if data.get("done"): break` stops the loop;
  * `data.get` on a decoded non-object raises AttributeError, which no
    `except` clause catches: the loop aborts with nothing emitted for that
    line.
Returns the loop trace and whether an uncaught exception aborted it. -/
def traceLines : List ULine → List Action × Bool
  | [] => ([], false)
  | .ws :: rest => traceLines rest
  | .malformed s :: rest =>
      let r := traceLines rest
      (.log (.decodeFailure s) :: r.1, r.2)
  | .json (.jobj fields) :: rest =>
      let chunk := (getJ fields "response").getD (.jstr "")
      let hd : List Action :=
        [.log (.chunkLog chunk), .sleep 300, .emit ⟨.message, chunk⟩]
      if truthyOpt (getJ fields "done") then (hd, false)
      else
        let r := traceLines rest
        (hd ++ r.1, r.2)
  | .json _ :: _ => ([], true)

/-- The fixed start banner event. -/
def startEvent : OutboundEvent :=
  ⟨.message, .jstr "Starting event stream<br>"⟩

/-- The status event carrying the upstream status code. -/
def statusEvent (code : Nat) : OutboundEvent :=
  ⟨.status, .jstr ("HTTP Status Code: " ++ toString code ++ "<br>")⟩

/-- The fixed closing banner event. -/
def closingBanner : OutboundEvent :=
  ⟨.message, .jstr "<br> closing stream <br>"⟩

/-- The terminal close event, with empty payload. -/
def closeEvent : OutboundEvent :=
  ⟨.close, .jstr ""⟩

/-- The fixed prefix of the trace once the connection establishes: connect,
yield the start banner, sleep 1s, print the status code, yield the status
event, sleep 1s — exactly the statements before the body loop. -/
def preTrace (status : Nat) : List Action :=
  [.connect, .emit startEvent, .sleep 1000,
   .log (.statusLog status), .emit (statusEvent status), .sleep 1000]

/-- The generator `event_stream`, translated statement by statement.

On `connectFail`, entering `async with client.stream` raises before any
`yield`; the outer `async with httpx.AsyncClient` still closes the client on
the way out, and the exception escapes the generator.

Otherwise the trace is: connect, yield the start banner, sleep 1s, print the
status code, yield the status event, sleep 1s, then the body loop.  If the
loop raised, the `async with` blocks release the connection while the
exception propagates and nothing further is yielded.  On normal loop exit
the `async with` blocks are left (releasing the connection), then the
closing banner is yielded, a 1s sleep runs, and the close event is
yielded. -/
def event_stream : Upstream → SessionRun
  | .connectFail => ⟨[.release], true⟩
  | .ok status lines =>
      let r := traceLines lines
      if r.2 then ⟨preTrace status ++ r.1 ++ [.release], true⟩
      else
        ⟨preTrace status ++ r.1 ++
          [.release, .emit closingBanner, .sleep 1000, .emit closeEvent],
         false⟩

/-- The outbound events of a trace, in emission order. -/
def eventsOf (tr : List Action) : List OutboundEvent :=
  tr.filterMap fun a =>
    match a with
    | .emit e => some e
    | _ => none

/-- The outbound event sequence of a session. -/
def outboundEvents (u : Upstream) : List OutboundEvent :=
  eventsOf (event_stream u).trace

/-- Number of `close` events in an event sequence. -/
def closeCount (es : List OutboundEvent) : Nat :=
  es.countP (fun e => e.event == .close)

/-- Number of `release` actions in a trace. -/
def releaseCount (tr : List Action) : Nat :=
  tr.countP (fun a => match a with | .release => true | _ => false)

/-- The fixed JSON body sent upstream, from the `client.stream` call. -/
def upstreamRequestBody : JsonVal :=
  .jobj [("model", .jstr "llama3.2"),
         ("prompt", .jstr "What is the capital of France?"),
         ("stream", .jbool true)]

/-- An inbound client request (path, headers, query, body), as the web
framework could hand it over. -/
structure ClientRequest where
  path : String
  headers : List (String × String)
  query : List (String × String)
  body : String

/-- The `/ai` route handler `async def ai()`: it declares no request
parameter, so the client request is never consulted; it sends the fixed
`upstreamRequestBody` upstream and returns the event stream over the
observed upstream behaviour. -/
def ai (_req : ClientRequest) (u : Upstream) : JsonVal × SessionRun :=
  (upstreamRequestBody, event_stream u)

/-- The status code a session observes, when the connection establishes. -/
def obsStatus : Upstream → Option Nat
  | .connectFail => none
  | .ok s _ => some s

/-- The body lines a session observes, when the connection establishes. -/
def obsLines : Upstream → Option (List ULine)
  | .connectFail => none
  | .ok _ l => some l

/-- Whether `connect` occurs strictly before the first emitted event in a
trace (false when an emit comes first or when neither occurs). -/
def connectBeforeFirstEmit : List Action → Bool
  | [] => false
  | .connect :: _ => true
  | .emit _ :: _ => false
  | _ :: rest => connectBeforeFirstEmit rest

/-- A line the body loop passes through without stopping or raising: it is
whitespace-only, undecodable, or decodes to an object whose `done` field is
falsy. -/
def passesThrough : ULine → Bool
  | .ws => true
  | .malformed _ => true
  | .json (.jobj fields) => !truthyOpt (getJ fields "done")
  | .json _ => false

/-- The body loop consumes every line of the list and continues past it. -/
def runsThrough (lines : List ULine) : Bool :=
  lines.all passesThrough

/-- Spec-side notion: a syntactically valid line, i.e. one `json.loads`
accepts. -/
def synValidLine : ULine → Bool
  | .json _ => true
  | _ => false

/-- A line that decodes to a JSON object. -/
def isObjLine : ULine → Bool
  | .json (.jobj _) => true
  | _ => false

/-- A line that decodes to valid JSON that is not an object. -/
def isNonObjJsonLine : ULine → Bool
  | .json (.jobj _) => false
  | .json _ => true
  | _ => false

/-- A line that decodes to an object whose `done` field is truthy. -/
def isDoneLine : ULine → Bool
  | .json (.jobj fields) => truthyOpt (getJ fields "done")
  | _ => false

/-- Spec-side notion: the lines up to and including the first one whose
decoded `done` flag is truthy (all of them, when there is none). -/
def upToDone : List ULine → List ULine
  | [] => []
  | l :: rest => if isDoneLine l then [l] else l :: upToDone rest

/-- Number of `message` events in an event sequence. -/
def messageCount (es : List OutboundEvent) : Nat :=
  es.countP (fun e => e.event == .message)

/-- The events emitted by the body loop alone, for a given line list. -/
def loopEvents (lines : List ULine) : List OutboundEvent :=
  eventsOf (traceLines lines).1

/-- The upstream line `\x7b"response":"A","done":false\x7d`. -/
def lineA : ULine :=
  .json (.jobj [("response", .jstr "A"), ("done", .jbool false)])

/-- The upstream line `not-json`, which fails structured decode. -/
def lineNJ : ULine := .malformed "not-json"

/-- The upstream line `\x7b"response":"B","done":true\x7d`. -/
def lineB : ULine :=
  .json (.jobj [("response", .jstr "B"), ("done", .jbool true)])

/-- The upstream line `\x7b"response":"C","done":false\x7d`. -/
def lineC : ULine :=
  .json (.jobj [("response", .jstr "C"), ("done", .jbool false)])

/-! ## Structural lemmas -/

theorem traceLines_nil : traceLines [] = ([], false) := rfl

theorem traceLines_ws (rest : List ULine) :
    traceLines (.ws :: rest) = traceLines rest := rfl

theorem traceLines_malformed (s : String) (rest : List ULine) :
    traceLines (.malformed s :: rest) =
      (.log (.decodeFailure s) :: (traceLines rest).1, (traceLines rest).2) := rfl

theorem traceLines_obj (fields : List (String × JsonVal)) (rest : List ULine) :
    traceLines (.json (.jobj fields) :: rest) =
      (if truthyOpt (getJ fields "done") then
        ([.log (.chunkLog ((getJ fields "response").getD (.jstr ""))), .sleep 300,
          .emit ⟨.message, (getJ fields "response").getD (.jstr "")⟩], false)
      else
        ([.log (.chunkLog ((getJ fields "response").getD (.jstr ""))), .sleep 300,
          .emit ⟨.message, (getJ fields "response").getD (.jstr "")⟩] ++
            (traceLines rest).1,
         (traceLines rest).2)) := by
  by_cases h : truthyOpt (getJ fields "done") = true
  · simp only [traceLines, h, if_true]
  · simp only [traceLines, Bool.not_eq_true] at h
    simp only [traceLines, h, Bool.false_eq_true, if_false]

theorem traceLines_nonObj (v : JsonVal) (rest : List ULine)
    (h : isNonObjJsonLine (.json v) = true) :
    traceLines (.json v :: rest) = ([], true) := by
  cases v with
  | jobj fields => simp [isNonObjJsonLine] at h
  | jnull => rfl
  | jbool b => rfl
  | jnum n => rfl
  | jstr s => rfl
  | jarr l => rfl

theorem eventsOf_append (a b : List Action) :
    eventsOf (a ++ b) = eventsOf a ++ eventsOf b := by
  simp [eventsOf, List.filterMap_append]

theorem eventsOf_preTrace (s : Nat) (x : List Action) :
    eventsOf (preTrace s ++ x) =
      startEvent :: statusEvent s :: eventsOf x := by
  simp [preTrace, eventsOf, List.filterMap_cons]

theorem loopEvents_nil : loopEvents [] = [] := rfl

theorem loopEvents_ws (rest : List ULine) :
    loopEvents (.ws :: rest) = loopEvents rest := rfl

theorem loopEvents_malformed (s : String) (rest : List ULine) :
    loopEvents (.malformed s :: rest) = loopEvents rest := by
  simp [loopEvents, traceLines_malformed, eventsOf, List.filterMap_cons]

theorem loopEvents_obj (fields : List (String × JsonVal)) (rest : List ULine) :
    loopEvents (.json (.jobj fields) :: rest) =
      ⟨.message, (getJ fields "response").getD (.jstr "")⟩ ::
        (if truthyOpt (getJ fields "done") then [] else loopEvents rest) := by
  by_cases h : truthyOpt (getJ fields "done") = true
  · simp [loopEvents, traceLines_obj, h, eventsOf, List.filterMap_cons]
  · simp only [Bool.not_eq_true] at h
    simp [loopEvents, traceLines_obj, h, eventsOf, List.filterMap_cons,
      List.filterMap_append]

theorem loopEvents_nonObj (v : JsonVal) (rest : List ULine)
    (h : isNonObjJsonLine (.json v) = true) :
    loopEvents (.json v :: rest) = [] := by
  rw [loopEvents, traceLines_nonObj v rest h]
  rfl

/-- Every event the body loop emits is a `message` event. -/
theorem loopEvents_message (lines : List ULine) :
    ∀ e ∈ loopEvents lines, e.event = .message := by
  induction lines with
  | nil => simp [loopEvents_nil]
  | cons l rest ih =>
    cases l with
    | ws => simpa [loopEvents_ws] using ih
    | malformed s => simpa [loopEvents_malformed] using ih
    | json v =>
      cases v with
      | jobj fields =>
        intro e he
        rw [loopEvents_obj] at he
        rcases List.mem_cons.mp he with h | h
        · simp [h]
        · by_cases hd : truthyOpt (getJ fields "done") = true
          · simp [hd] at h
          · simp only [Bool.not_eq_true] at hd
            simp only [hd, Bool.false_eq_true, if_false] at h
            exact ih e h
      | jnull => rw [loopEvents_nonObj .jnull rest rfl]; simp
      | jbool b => rw [loopEvents_nonObj (.jbool b) rest rfl]; simp
      | jnum n => rw [loopEvents_nonObj (.jnum n) rest rfl]; simp
      | jstr s => rw [loopEvents_nonObj (.jstr s) rest rfl]; simp
      | jarr es => rw [loopEvents_nonObj (.jarr es) rest rfl]; simp

/-- The body loop never emits a `close` event. -/
theorem closeCount_loopEvents (lines : List ULine) :
    closeCount (loopEvents lines) = 0 := by
  rw [closeCount, List.countP_eq_zero]
  intro e he
  have := loopEvents_message lines e he
  simp [this]

theorem event_stream_ok (s : Nat) (lines : List ULine) :
    event_stream (.ok s lines) =
      if (traceLines lines).2 then
        ⟨preTrace s ++ (traceLines lines).1 ++ [.release], true⟩
      else
        ⟨preTrace s ++ (traceLines lines).1 ++
          [.release, .emit closingBanner, .sleep 1000, .emit closeEvent],
         false⟩ := rfl

theorem outboundEvents_ok_raised (s : Nat) (lines : List ULine)
    (h : (traceLines lines).2 = true) :
    outboundEvents (.ok s lines) =
      startEvent :: statusEvent s :: loopEvents lines := by
  rw [outboundEvents, event_stream_ok, h, if_pos rfl]
  rw [List.append_assoc, eventsOf_preTrace, eventsOf_append]
  simp [loopEvents, eventsOf]

theorem outboundEvents_ok_normal (s : Nat) (lines : List ULine)
    (h : (traceLines lines).2 = false) :
    outboundEvents (.ok s lines) =
      startEvent :: statusEvent s ::
        (loopEvents lines ++ [closingBanner, closeEvent]) := by
  rw [outboundEvents, event_stream_ok, h, if_neg (by simp)]
  rw [List.append_assoc, eventsOf_preTrace, eventsOf_append]
  simp [loopEvents, eventsOf, List.filterMap_cons]

theorem closeCount_cons_start_status (s : Nat) (x : List OutboundEvent) :
    closeCount (startEvent :: statusEvent s :: x) = closeCount x := by
  have h1 : (startEvent.event == EvKind.close) = false := rfl
  have h2 : ((statusEvent s).event == EvKind.close) = false := rfl
  simp [closeCount, List.countP_cons, h1, h2]

theorem closeCount_append_close (x : List OutboundEvent) :
    closeCount (x ++ [closingBanner, closeEvent]) = closeCount x + 1 := by
  have h1 : (closingBanner.event == EvKind.close) = false := rfl
  have h2 : (closeEvent.event == EvKind.close) = true := rfl
  simp [closeCount, List.countP_append, List.countP_cons, h1, h2]

theorem closeCount_take_le (es : List OutboundEvent) (k : Nat) :
    closeCount (es.take k) ≤ closeCount es :=
  List.Sublist.countP_le _ (List.take_sublist k es)

theorem closeCount_take_of_concat (f : List OutboundEvent) (k : Nat)
    (hf : closeCount f = 0) (hk : k < (f ++ [closeEvent]).length) :
    closeCount ((f ++ [closeEvent]).take k) = 0 := by
  have hk2 : k ≤ f.length := by
    simp only [List.length_append, List.length_cons, List.length_nil] at hk
    omega
  rw [List.take_append_eq_append_take, Nat.sub_eq_zero_of_le hk2]
  simp only [List.take_zero, List.append_nil]
  have hsub := closeCount_take_le f k
  omega

/-- The body loop is compositional over a consumed prefix: when it passes
through every line of `pre`, processing `pre ++ rest` is processing `pre`
followed by processing `rest`. -/
theorem traceLines_append (pre rest : List ULine) :
    runsThrough pre = true →
    traceLines (pre ++ rest) =
      ((traceLines pre).1 ++ (traceLines rest).1, (traceLines rest).2) := by
  induction pre with
  | nil => intro _; simp [traceLines_nil]
  | cons l pre ih =>
    intro h
    rw [runsThrough, List.all_cons, Bool.and_eq_true] at h
    obtain ⟨hl, hpre⟩ := h
    have ihr := ih hpre
    cases l with
    | ws => rw [List.cons_append, traceLines_ws, traceLines_ws, ihr]
    | malformed s =>
      rw [List.cons_append, traceLines_malformed, traceLines_malformed, ihr]
      simp
    | json v =>
      cases v with
      | jobj fields =>
        have hd : truthyOpt (getJ fields "done") = false := by
          simpa [passesThrough] using hl
        rw [List.cons_append, traceLines_obj, traceLines_obj, hd]
        simp [ihr]
      | jnull => simp [passesThrough] at hl
      | jbool b => simp [passesThrough] at hl
      | jnum n => simp [passesThrough] at hl
      | jstr s => simp [passesThrough] at hl
      | jarr es => simp [passesThrough] at hl

theorem closeCount_append (a b : List OutboundEvent) :
    closeCount (a ++ b) = closeCount a + closeCount b := by
  simp [closeCount, List.countP_append]

theorem take6_preTrace (s : Nat) (x : List Action) :
    (preTrace s ++ x).take 6 = preTrace s := by
  rw [show (6 : Nat) = (preTrace s).length from rfl, List.take_left]

theorem drop6_preTrace (s : Nat) (x : List Action) :
    (preTrace s ++ x).drop 6 = x := by
  rw [show (6 : Nat) = (preTrace s).length from rfl, List.drop_left]

/-! ## Claims -/

/-- C1, counterexample. The claim asserts every exit path emits exactly one
terminal close event; when the upstream connection fails to establish the
generator raises before any yield, so this session emits zero events and in
particular zero close events. -/
theorem c1_counterexample :
    closeCount (outboundEvents .connectFail) = 0
    ∧ outboundEvents .connectFail = [] := ⟨rfl, rfl⟩

/-- C1, amended. Whenever the generator finishes without an uncaught
exception, the outbound sequence holds exactly one close event and it is the
last element.  When the generator raises (upstream connect failure, or a
line decoding to non-object JSON), no close event is emitted at all.  Any
strict truncation of the outbound sequence — what a client that disconnects
after k events has observed — holds no close event; hence no outbound event
is ever emitted after a close event. -/
theorem c1_close_terminal (u : Upstream) (k : Nat) :
    ((event_stream u).raised = true → closeCount (outboundEvents u) = 0)
    ∧ ((event_stream u).raised = false →
        closeCount (outboundEvents u) = 1
        ∧ (outboundEvents u).getLast? = some closeEvent)
    ∧ (k < (outboundEvents u).length →
        closeCount ((outboundEvents u).take k) = 0) := by
  cases u with
  | connectFail =>
    refine ⟨fun _ => rfl, fun h => by simp [event_stream] at h, fun hk => ?_⟩
    have hz : outboundEvents .connectFail = [] := rfl
    rw [hz] at hk
    simp at hk
  | ok s lines =>
    by_cases hr : (traceLines lines).2 = true
    · have hev := outboundEvents_ok_raised s lines hr
      have hz : closeCount (outboundEvents (.ok s lines)) = 0 := by
        rw [hev, closeCount_cons_start_status, closeCount_loopEvents]
      refine ⟨fun _ => hz, fun h => ?_, fun _ => ?_⟩
      · rw [event_stream_ok, hr] at h
        simp at h
      · have := closeCount_take_le (outboundEvents (.ok s lines)) k
        omega
    · simp only [Bool.not_eq_true] at hr
      have hev := outboundEvents_ok_normal s lines hr
      have hraised : (event_stream (.ok s lines)).raised = false := by
        rw [event_stream_ok, hr]
        simp
      have hshape : outboundEvents (.ok s lines) =
          (startEvent :: statusEvent s :: (loopEvents lines ++ [closingBanner]))
            ++ [closeEvent] := by
        rw [hev]
        simp
      have hf : closeCount
          (startEvent :: statusEvent s :: (loopEvents lines ++ [closingBanner]))
          = 0 := by
        rw [closeCount_cons_start_status, closeCount_append,
          closeCount_loopEvents]
        rfl
      refine ⟨fun h => ?_, fun _ => ⟨?_, ?_⟩, fun hk => ?_⟩
      · rw [hraised] at h
        exact absurd h (by simp)
      · rw [hshape, closeCount_append, hf]
        rfl
      · rw [hshape, List.getLast?_concat]
      · rw [hshape] at hk ⊢
        exact closeCount_take_of_concat _ k hf hk

/-- C1, witness: a concrete completed session has exactly one close event,
last, and its 3-event truncation has none. -/
theorem c1_witness :
    closeCount (outboundEvents (.ok 200 [])) = 1
    ∧ (outboundEvents (.ok 200 [])).getLast? = some closeEvent
    ∧ closeCount ((outboundEvents (.ok 200 [])).take 3) = 0 :=
  ⟨((c1_close_terminal (.ok 200 []) 3).2.1 rfl).1,
   ((c1_close_terminal (.ok 200 []) 3).2.1 rfl).2,
   (c1_close_terminal (.ok 200 []) 3).2.2 (by decide)⟩

/-- C2, counterexample. The claim asserts a connect failure still produces a
descriptive status/message event followed by a close event; in the code the
`async with client.stream` entry raises before any yield, so the session
emits no outbound events at all and the exception escapes the generator. -/
theorem c2_counterexample :
    outboundEvents .connectFail = []
    ∧ (event_stream .connectFail).raised = true := ⟨rfl, rfl⟩

/-- C2, amended. When the upstream connection fails to establish the session
emits zero outbound events of any kind (hence zero data-carrying message
events from upstream content and zero close events), the failure escapes the
relay as an uncaught exception, and the scoped `async with` still releases
the client/connection handle exactly once. -/
theorem c2_connect_failure :
    outboundEvents .connectFail = []
    ∧ messageCount (outboundEvents .connectFail) = 0
    ∧ closeCount (outboundEvents .connectFail) = 0
    ∧ (event_stream .connectFail).raised = true
    ∧ releaseCount (event_stream .connectFail).trace = 1 :=
  ⟨rfl, rfl, rfl, rfl, rfl⟩

/-- C3. A line failing structured decode, located anywhere after a prefix the
loop passes through, is recorded locally as a decode-failure log, contributes
no outbound event, does not abort the session, and processing continues with
the following lines: the loop trace is the prefix trace, the log, then the
suffix trace, the raised flag is that of the suffix alone, and the outbound
sequence of the whole session equals that of the session with the malformed
line removed. -/
theorem c3_malformed_dropped (pre suf : List ULine) (s : String) (st : Nat)
    (h : runsThrough pre = true) :
    (traceLines (pre ++ .malformed s :: suf)).1 =
      (traceLines pre).1 ++ .log (.decodeFailure s) :: (traceLines suf).1
    ∧ (traceLines (pre ++ .malformed s :: suf)).2 = (traceLines suf).2
    ∧ outboundEvents (.ok st (pre ++ .malformed s :: suf)) =
        outboundEvents (.ok st (pre ++ suf)) := by
  have h1 := traceLines_append pre (.malformed s :: suf) h
  have h2 := traceLines_append pre suf h
  rw [traceLines_malformed] at h1
  have hle : loopEvents (pre ++ .malformed s :: suf) = loopEvents (pre ++ suf) := by
    rw [loopEvents, h1, loopEvents, h2]
    simp only [eventsOf_append]
    simp [eventsOf, List.filterMap_cons]
  refine ⟨by rw [h1], by rw [h1], ?_⟩
  by_cases hr : (traceLines suf).2 = true
  · rw [outboundEvents_ok_raised st _ (by rw [h1]; exact hr),
      outboundEvents_ok_raised st _ (by rw [h2]; exact hr), hle]
  · simp only [Bool.not_eq_true] at hr
    rw [outboundEvents_ok_normal st _ (by rw [h1]; exact hr),
      outboundEvents_ok_normal st _ (by rw [h2]; exact hr), hle]

/-- C3, witness: a malformed line after a whitespace line and a valid
fragment changes nothing in the outbound sequence. -/
theorem c3_witness :
    runsThrough [.ws, lineA] = true
    ∧ outboundEvents (.ok 200 ([.ws, lineA] ++ .malformed "not-json" :: [lineB]))
        = outboundEvents (.ok 200 ([.ws, lineA] ++ [lineB])) :=
  ⟨rfl, (c3_malformed_dropped [.ws, lineA] [lineB] "not-json" 200 rfl).2.2⟩

/-- C4, counterexample. The claim counts one message event per syntactically
valid non-empty line up to the done line; the line `5` is syntactically
valid JSON and non-empty, yet the loop raises AttributeError on `data.get`
and emits zero message events for it. -/
theorem c4_counterexample :
    messageCount (loopEvents [.json (.jnum 5)]) = 0
    ∧ (upToDone [.json (.jnum 5)]).countP synValidLine = 1 := ⟨rfl, rfl⟩

/-- C4, amended. For every upstream line sequence in which each consumed
syntactically valid line decodes to a JSON object, the number of message
events emitted by the body loop equals the number of object lines up to and
including the first whose done flag is truthy (all lines when none is);
malformed and whitespace-only lines contribute zero events. -/
theorem c4_message_count (lines : List ULine) :
    (upToDone lines).all (fun l => !isNonObjJsonLine l) = true →
    messageCount (loopEvents lines) = (upToDone lines).countP isObjLine := by
  induction lines with
  | nil => intro _; rfl
  | cons l rest ih =>
    intro h
    cases l with
    | ws =>
      have hupto : upToDone (ULine.ws :: rest) = ULine.ws :: upToDone rest := rfl
      rw [hupto] at h ⊢
      rw [List.all_cons, Bool.and_eq_true] at h
      rw [loopEvents_ws, List.countP_cons]
      have hobj : isObjLine ULine.ws = false := rfl
      rw [hobj]
      simp only [Bool.false_eq_true, if_false, Nat.add_zero]
      exact ih h.2
    | malformed s =>
      have hupto : upToDone (ULine.malformed s :: rest)
          = ULine.malformed s :: upToDone rest := rfl
      rw [hupto] at h ⊢
      rw [List.all_cons, Bool.and_eq_true] at h
      rw [loopEvents_malformed, List.countP_cons]
      have hobj : isObjLine (ULine.malformed s) = false := rfl
      rw [hobj]
      simp only [Bool.false_eq_true, if_false, Nat.add_zero]
      exact ih h.2
    | json v =>
      cases v with
      | jobj fields =>
        rw [loopEvents_obj]
        by_cases hdone : truthyOpt (getJ fields "done") = true
        · have hd : isDoneLine (ULine.json (.jobj fields)) = true := hdone
          have hupto : upToDone (ULine.json (.jobj fields) :: rest)
              = [ULine.json (.jobj fields)] := by
            rw [upToDone, if_pos hd]
          rw [hupto, hdone, if_pos rfl]
          rfl
        · have hd : isDoneLine (ULine.json (.jobj fields)) = false := by
            simpa [isDoneLine] using hdone
          have hupto : upToDone (ULine.json (.jobj fields) :: rest)
              = ULine.json (.jobj fields) :: upToDone rest := by
            rw [upToDone, if_neg (by simp [hd])]
          rw [hupto] at h ⊢
          rw [List.all_cons, Bool.and_eq_true] at h
          simp only [Bool.not_eq_true] at hdone
          rw [hdone]
          simp only [Bool.false_eq_true, if_false]
          rw [List.countP_cons]
          have hobj : isObjLine (ULine.json (.jobj fields)) = true := rfl
          rw [hobj]
          simp only [if_true]
          rw [messageCount, List.countP_cons]
          have hmsg : ((⟨.message,
              (getJ fields "response").getD (.jstr "")⟩ : OutboundEvent).event
              == EvKind.message) = true := rfl
          rw [hmsg]
          simp only [if_true]
          have := ih h.2
          rw [messageCount] at this
          omega
      | jnull =>
        rw [show upToDone (ULine.json .jnull :: rest)
            = ULine.json .jnull :: upToDone rest from rfl, List.all_cons] at h
        simp [isNonObjJsonLine] at h
      | jbool b =>
        rw [show upToDone (ULine.json (.jbool b) :: rest)
            = ULine.json (.jbool b) :: upToDone rest from rfl, List.all_cons] at h
        simp [isNonObjJsonLine] at h
      | jnum n =>
        rw [show upToDone (ULine.json (.jnum n) :: rest)
            = ULine.json (.jnum n) :: upToDone rest from rfl, List.all_cons] at h
        simp [isNonObjJsonLine] at h
      | jstr s =>
        rw [show upToDone (ULine.json (.jstr s) :: rest)
            = ULine.json (.jstr s) :: upToDone rest from rfl, List.all_cons] at h
        simp [isNonObjJsonLine] at h
      | jarr es =>
        rw [show upToDone (ULine.json (.jarr es) :: rest)
            = ULine.json (.jarr es) :: upToDone rest from rfl, List.all_cons] at h
        simp [isNonObjJsonLine] at h

/-- C4, witness: with a whitespace line, two decoded fragments, one malformed
line and a trailing line after done, the loop emits exactly two message
events, matching the two object lines up to the done line. -/
theorem c4_witness :
    (upToDone [.ws, lineA, lineNJ, lineB, lineC]).all
        (fun l => !isNonObjJsonLine l) = true
    ∧ messageCount (loopEvents [.ws, lineA, lineNJ, lineB, lineC])
        = (upToDone [.ws, lineA, lineNJ, lineB, lineC]).countP isObjLine :=
  ⟨rfl, c4_message_count _ rfl⟩

/-- C5. For the concrete upstream lines A, not-json, B with done true, C,
the outbound sequence is exactly the start banner, the status event, the
fragments "A" and "B", the closing banner and the close event; and the line
after the done line is never consumed: the session with line C present is
identical to the session without it. -/
theorem c5_concrete :
    outboundEvents (.ok 200 [lineA, lineNJ, lineB, lineC]) =
      [startEvent, statusEvent 200, ⟨.message, .jstr "A"⟩,
       ⟨.message, .jstr "B"⟩, closingBanner, closeEvent]
    ∧ event_stream (.ok 200 [lineA, lineNJ, lineB, lineC]) =
        event_stream (.ok 200 [lineA, lineNJ, lineB]) := ⟨rfl, rfl⟩

/-- C6, counterexample. The claim asserts the start banner is emitted before
the upstream connection is opened; at this concrete session the connect
action strictly precedes the first emitted event. -/
theorem c6_counterexample :
    connectBeforeFirstEmit (event_stream (.ok 200 [])).trace = true := rfl

/-- C6, amended. For every established session the connection is opened
first, and the trace then proceeds exactly as: emit the start banner, sleep,
log the status code, emit the status event, sleep; so the first outbound
event is the fixed start banner — emitted immediately after (not before) the
connection opens — and the second outbound event is the status event
carrying the upstream status code. -/
theorem c6_first_events (s : Nat) (lines : List ULine) :
    (event_stream (.ok s lines)).trace.take 6 =
      [.connect, .emit startEvent, .sleep 1000, .log (.statusLog s),
       .emit (statusEvent s), .sleep 1000]
    ∧ (outboundEvents (.ok s lines)).take 2 = [startEvent, statusEvent s] := by
  constructor
  · rw [event_stream_ok]
    by_cases hr : (traceLines lines).2 = true
    · rw [if_pos hr, List.append_assoc, take6_preTrace]
      rfl
    · rw [if_neg hr, List.append_assoc, take6_preTrace]
      rfl
  · by_cases hr : (traceLines lines).2 = true
    · rw [outboundEvents_ok_raised s lines hr]
      rfl
    · simp only [Bool.not_eq_true] at hr
      rw [outboundEvents_ok_normal s lines hr]
      rfl

/-- C7. A non-success upstream status code is not a stop condition: the code
is reported in the second outbound event, and the whole remainder of the run
— the trace after the six pre-loop actions, the outbound events after the
first two, and the raised flag — is identical to the run of the same body
under status 200. -/
theorem c7_nonsuccess_status (s : Nat) (lines : List ULine) (_h : 400 ≤ s) :
    (outboundEvents (.ok s lines)).take 2 = [startEvent, statusEvent s]
    ∧ (event_stream (.ok s lines)).trace.drop 6 =
        (event_stream (.ok 200 lines)).trace.drop 6
    ∧ (outboundEvents (.ok s lines)).drop 2 =
        (outboundEvents (.ok 200 lines)).drop 2
    ∧ (event_stream (.ok s lines)).raised =
        (event_stream (.ok 200 lines)).raised := by
  refine ⟨?_, ?_, ?_, ?_⟩
  · by_cases hr : (traceLines lines).2 = true
    · rw [outboundEvents_ok_raised s lines hr]
      rfl
    · simp only [Bool.not_eq_true] at hr
      rw [outboundEvents_ok_normal s lines hr]
      rfl
  · rw [event_stream_ok, event_stream_ok]
    by_cases hr : (traceLines lines).2 = true
    · rw [if_pos hr, if_pos hr]
      simp only [List.append_assoc, drop6_preTrace]
    · rw [if_neg hr, if_neg hr]
      simp only [List.append_assoc, drop6_preTrace]
  · by_cases hr : (traceLines lines).2 = true
    · rw [outboundEvents_ok_raised s lines hr,
        outboundEvents_ok_raised 200 lines hr]
      rfl
    · simp only [Bool.not_eq_true] at hr
      rw [outboundEvents_ok_normal s lines hr,
        outboundEvents_ok_normal 200 lines hr]
      rfl
  · rw [event_stream_ok, event_stream_ok]
    by_cases hr : (traceLines lines).2 = true
    · rw [if_pos hr, if_pos hr]
    · rw [if_neg hr, if_neg hr]

/-- C7, witness: a 404 session reports the code in its second event and its
body consumption matches the 200 run. -/
theorem c7_witness :
    400 ≤ 404
    ∧ (outboundEvents (.ok 404 [])).take 2 = [startEvent, statusEvent 404]
    ∧ (outboundEvents (.ok 404 [])).drop 2 =
        (outboundEvents (.ok 200 [])).drop 2 :=
  ⟨by decide, (c7_nonsuccess_status 404 [] (by decide)).1,
   (c7_nonsuccess_status 404 [] (by decide)).2.2.1⟩

/-- C8. An upstream line decoding to valid JSON that is not an object — here
the line `5` and the line `"x"` — makes `data.get` raise AttributeError,
which no except clause catches: the generator raises, the outbound sequence
stops at the status event, and neither the closing banner nor any close
event is emitted for that session. -/
theorem c8_nonobject_aborts :
    (event_stream (.ok 200 [.json (.jnum 5)])).raised = true
    ∧ outboundEvents (.ok 200 [.json (.jnum 5)]) = [startEvent, statusEvent 200]
    ∧ closeCount (outboundEvents (.ok 200 [.json (.jnum 5)])) = 0
    ∧ (event_stream (.ok 200 [.json (.jstr "x")])).raised = true
    ∧ outboundEvents (.ok 200 [.json (.jstr "x")]) =
        [startEvent, statusEvent 200] :=
  ⟨rfl, rfl, rfl, rfl, rfl⟩

/-- C9. The relay is deterministic and ignores client input: two sessions
that observe the same upstream status code and the same body lines produce
identical runs under any two client requests, and the payload sent upstream
is the fixed constant body (model llama3.2, the fixed prompt, stream true),
independent of the client request. -/
theorem c9_deterministic (r₁ r₂ : ClientRequest) (u₁ u₂ : Upstream)
    (h₁ : obsStatus u₁ = obsStatus u₂) (h₂ : obsLines u₁ = obsLines u₂) :
    ai r₁ u₁ = ai r₂ u₂ ∧ (ai r₁ u₁).1 = upstreamRequestBody := by
  refine ⟨?_, rfl⟩
  cases u₁ with
  | connectFail =>
    cases u₂ with
    | connectFail => rfl
    | ok s l => simp [obsStatus] at h₁
  | ok s l =>
    cases u₂ with
    | connectFail => simp [obsStatus] at h₁
    | ok s2 l2 =>
      simp only [obsStatus, Option.some.injEq] at h₁
      simp only [obsLines, Option.some.injEq] at h₂
      subst h₁
      subst h₂
      rfl

/-- C9, witness: two different client requests over the same upstream
observation give identical results. -/
theorem c9_witness :
    ai ⟨"/ai", [], [], ""⟩ (.ok 200 [lineA]) =
      ai ⟨"/other", [("h", "v")], [("q", "z")], "body"⟩ (.ok 200 [lineA]) :=
  (c9_deterministic ⟨"/ai", [], [], ""⟩ ⟨"/other", [("h", "v")], [("q", "z")], "body"⟩
    (.ok 200 [lineA]) (.ok 200 [lineA]) rfl rfl).1

/-- C10. A decoded JSON object with no response field is not treated as
malformed: the loop still emits a message event for it and its payload is
the empty string (the missing field defaults to the empty Python string);
the first recorded action for the line is the chunk log, not a
decode-failure log. -/
theorem c10_missing_response (fields : List (String × JsonVal))
    (rest : List ULine) (h : getJ fields "response" = none) :
    (loopEvents (.json (.jobj fields) :: rest)).head? =
      some ⟨.message, .jstr ""⟩
    ∧ (traceLines (.json (.jobj fields) :: rest)).1.head? =
      some (.log (.chunkLog (.jstr ""))) := by
  constructor
  · rw [loopEvents_obj, h]
    rfl
  · rw [traceLines_obj, h]
    by_cases hd : truthyOpt (getJ fields "done") = true
    · rw [if_pos hd]
      rfl
    · rw [if_neg hd]
      rfl

/-- C10, witness: an object holding only a done flag yields a message event
with empty payload. -/
theorem c10_witness :
    getJ [("done", JsonVal.jbool true)] "response" = none
    ∧ (loopEvents [.json (.jobj [("done", JsonVal.jbool true)])]).head? =
        some ⟨.message, .jstr ""⟩ :=
  ⟨rfl, (c10_missing_response [("done", JsonVal.jbool true)] [] rfl).1⟩

end HtmxRelay
